import Mathlib

/-!
Verification of the r-place load-testing harness (`scripts/fiddle.py`)
against its natural-language specification.

The script drives workers against a tile-grid websocket server.  Each
worker repeatedly picks a random `(json, expectation)` pair from a
pre-generated workload list, sends the json, appends the expectation
dict to its local `check` list (setting `check[-1]["acked"] = False`),
and then dispatches on the received response:
  * text       → `check[-1]["acked"] = True`
  * bytes      → decode a `TileMapUpdate` snapshot and verify every
                 acked pending check against the tile buffer
  * otherwise  → log "Unknown data type" and continue.

The integrity check for a pending item computes
`offset = (x + y * TILE_X) * 4`, encodes the color as 4 little-endian
bytes, linearly scans the flattened buffer for the first occurrence of
that byte sequence (`find_byte_sequence`), and declares a mismatch
exactly when the first-occurrence index differs from `offset`.

Python dicts are reference values: the worker's `check` list holds
references into the workload list's expectation dicts, so we model the
worker state as a store of records plus a pending list of indices into
that store.
-/

namespace RPlace

/-- `NUM_WORKERS = 2` from fiddle.py line 9 (`# Number of workers to create`). -/
def NUM_WORKERS : Nat := 2

/-- `TILE_X = 1000` from fiddle.py line 13: the fixed global grid width. -/
def TILE_X : Nat := 1000

/-- One workload expectation record / pending check.  `random_msg` creates the
dict `{"x": x, "y": y, "color": color}` with no `"acked"` key, so `acked` is
an `Option Bool` that starts as `none`; the worker later writes `false` or
`true` into the very same dict. -/
structure PendingCheck where
  x : Nat
  y : Nat
  color : Nat
  acked : Option Bool
deriving Repr, DecidableEq

/-- `color.to_bytes(4, byteorder="little")` from fiddle.py line 63, for
colors below 2^32 (the workload generator draws colors in `[0, 10000]`). -/
def toBytesLE4 (c : Nat) : List Nat :=
  [c % 256, c / 256 % 256, c / 65536 % 256, c / 16777216 % 256]

/-- First index (from the left) at which `seq` occurs contiguously in `l`,
`none` if it does not occur: the semantics of Python `bytes.find`. -/
def findSeq (seq : List Nat) : List Nat → Option Nat
  | [] => if seq = [] then some 0 else none
  | a :: rest =>
    if (a :: rest).take seq.length = seq then some 0
    else (findSeq seq rest).map (· + 1)

/-- `find_byte_sequence` from fiddle.py lines 22-26:
`arr.astype(np.uint8).tobytes().find(sequence)`.  The `astype(np.uint8)`
truncates each element mod 256 (the identity on a byte buffer); `find`
returns the first occurrence index or `-1`. -/
def find_byte_sequence (arr : List Nat) (seq : List Nat) : Int :=
  match findSeq seq (arr.map (· % 256)) with
  | some i => (i : Int)
  | none => -1

/-- Modelled from the spec: the decoded binary snapshot envelope
(`protocol.TileMapUpdate`, generated code not under `src/`) exposes the
tile origin coordinates, the subregion dimensions and a row-major buffer
of 4-byte little-endian packed colors (spec sections 3 and 4.2); the
buffer is kept as a byte list, on which numpy's
`astype(np.uint8).tobytes()` is the identity. -/
structure Snapshot where
  x : Nat
  y : Nat
  width : Nat
  height : Nat
  tiles : List Nat
deriving Repr, DecidableEq

/-- The diagnostic payload the worker prints on a mismatch (fiddle.py
lines 66-70): the expected byte sequence, the 4 buffer bytes at the
computed offset (`tile_map[offset:offset + 4]`), the offset itself, the
index returned by the linear scan, and the coordinates. -/
structure MismatchError where
  expected : List Nat
  received : List Nat
  offset : Nat
  found_at : Int
  x : Nat
  y : Nat
deriving Repr, DecidableEq

/-- One iteration of the check loop body (fiddle.py lines 58-73) for a
single pending item: skip when `acked == False`; otherwise compute the
byte offset `(x + y * TILE_X) * 4`, the little-endian color bytes, run
the linear scan, and report a mismatch exactly when the scan index
differs from the offset. -/
def checkOne (tiles : List Nat) (r : PendingCheck) : Option MismatchError :=
  if r.acked = some false then none
  else
    let offset := (r.x + r.y * TILE_X) * 4
    let byte_data := toBytesLE4 r.color
    let found := find_byte_sequence tiles byte_data
    if found ≠ (offset : Int) then
      some ⟨byte_data, (tiles.drop offset).take 4, offset, found, r.x, r.y⟩
    else
      none

/-- The `for check_tile in check` loop (fiddle.py lines 58-73): the first
mismatch makes the worker close the connection and return, so the fold
stops at the first error. -/
def runChecks (tiles : List Nat) : List PendingCheck → Option MismatchError
  | [] => none
  | r :: rest =>
    match checkOne tiles r with
    | some e => some e
    | none => runChecks tiles rest

/-- The worker's mutable state: `store` is the workload list's expectation
dicts (Python dicts are shared mutable references), `pending` is the
worker's `check` list, holding references (indices) into `store`. -/
structure WorkerState where
  store : List PendingCheck
  pending : List Nat
deriving Repr, DecidableEq

/-- Write `acked := b` into the record at store index `i` (the Python
`d["acked"] = b` on the shared dict `d`). -/
def setAcked (store : List PendingCheck) (i : Nat) (b : Bool) : List PendingCheck :=
  match store.get? i with
  | some r => store.set i { r with acked := some b }
  | none => store

/-- Sending iteration prefix (fiddle.py lines 40-44): the worker appends a
reference to the chosen workload entry's expectation dict to `check` and
sets that shared dict's `acked` to `False`. -/
def sendStep (s : WorkerState) (i : Nat) : WorkerState :=
  { store := setAcked s.store i false, pending := s.pending ++ [i] }

/-- Text-response branch (fiddle.py lines 47-50): `check[-1]["acked"] = True`,
a write through the reference held at the last pending position.  The
worker only receives after a send, so `pending` is never empty here; the
`none` case is unreachable. -/
def textAckStep (s : WorkerState) : WorkerState :=
  match s.pending.getLast? with
  | some i => { store := setAcked s.store i true, pending := s.pending }
  | none => s

/-- The pending-check records as the check loop reads them: each pending
reference dereferenced through the store. -/
def pendingRecs (s : WorkerState) : List PendingCheck :=
  s.pending.filterMap (fun i => s.store.get? i)

/-- Outcome of handling one received response inside the worker loop. -/
inductive StepOutcome where
  /-- The loop continues with the given state. -/
  | next (s : WorkerState)
  /-- The worker closed the connection and returned after a mismatch,
  its state at the moment of return attached. -/
  | terminated (e : MismatchError) (s : WorkerState)
  /-- An exception escaped the worker body (no handler in fiddle.py). -/
  | crashed
deriving Repr, DecidableEq

/-- Binary-response branch (fiddle.py lines 51-74): run the checks over
the pending list; the first mismatch closes the connection and returns
(the pending list is left as it was); otherwise `check = []` clears it
and the loop continues. -/
def binaryStep (s : WorkerState) (snap : Snapshot) : StepOutcome :=
  match runChecks snap.tiles (pendingRecs s) with
  | some e => .terminated e s
  | none => .next { s with pending := [] }

/-- Decode failure for a malformed binary snapshot. -/
inductive DecodeError where
  | truncated
deriving Repr, DecidableEq

/-- Read a 4-byte little-endian field at byte position `k`. -/
def readLE4 (buf : List Nat) (k : Nat) : Nat :=
  buf.getD k 0 + buf.getD (k + 1) 0 * 256 + buf.getD (k + 2) 0 * 65536 +
    buf.getD (k + 3) 0 * 16777216

/-- Modelled from the spec: the snapshot decoder
(`TileMapUpdate.GetRootAsTileMapUpdate`, generated code not under `src/`)
fails on a buffer shorter than the minimum envelope (origin X, origin Y,
width, height as 4-byte fields, 16 bytes) and otherwise yields the origin
coordinates, dimensions and the tile byte buffer (spec section 4.2). -/
def decodeSnapshot (buf : List Nat) : Except DecodeError Snapshot :=
  if buf.length < 16 then
    .error .truncated
  else
    .ok ⟨readLE4 buf 0, readLE4 buf 4, readLE4 buf 8, readLE4 buf 12, buf.drop 16⟩

/-- A received response, classified the way the worker's `isinstance`
dispatch does (fiddle.py lines 47, 51, 75). -/
inductive RecvData where
  | text (msg : String)
  | binary (buf : List Nat)
  | other
deriving Repr, DecidableEq

/-- Response handling of one worker-loop iteration (fiddle.py lines 45-76):
text acks the last pending check; bytes are decoded and checked — the
decode call sits under no `try`/`except`, so a decode failure propagates
as an exception and the worker crashes; any other type is logged as
"Unknown data type" and the loop continues. -/
def handleRecv (s : WorkerState) : RecvData → StepOutcome
  | .text _ => .next (textAckStep s)
  | .binary buf =>
    match decodeSnapshot buf with
    | .error _ => .crashed
    | .ok snap => binaryStep s snap
  | .other => .next s

/-- Whether `(x, y)` of a check lies inside the snapshot's covered region
(spec section 4.2: the subregion `[x, x + width) × [y, y + height)`).
The source has no such test; this definition states the spec's side for
comparison. -/
def inRegion (snap : Snapshot) (r : PendingCheck) : Bool :=
  decide (snap.x ≤ r.x) && decide (r.x < snap.x + snap.width) &&
    decide (snap.y ≤ r.y) && decide (r.y < snap.y + snap.height)

/-- The offset formula as the spec states it (section 4.3):
`((x - snapshot.x) + (y - snapshot.y) * snapshot.width) * 4`, written
with truncated subtraction; for in-region coordinates the subtractions
do not truncate.  Stated for comparison with the source's formula. -/
def specOffset (snap : Snapshot) (r : PendingCheck) : Nat :=
  ((r.x - snap.x) + (r.y - snap.y) * snap.width) * 4

/-- Worker ids spawned by `main` (fiddle.py lines 103-106): after
generating the workload it runs the single call `coroutine(0, msg_dict)`,
one worker, and inspects no outcome. -/
def mainSpawnedWorkers : List Nat := [0]

/-- Buffer for the C1 analysis: the expected byte pattern occurs both at
byte 0 and at the check's computed offset 4. -/
def tilesC1 : List Nat := [7, 0, 0, 0, 7, 0, 0, 0]

/-- Acked check for the C1 analysis, offset `(1 + 0 * TILE_X) * 4 = 4`. -/
def rC1 : PendingCheck := ⟨1, 0, 7, some true⟩

/-- Snapshot for the C2 analysis: origin `(1, 0)`, width 3, height 1,
12 zero bytes. -/
def snapC2 : Snapshot := ⟨1, 0, 3, 1, List.replicate 12 0⟩

/-- Acked check for the C2 analysis: `(3, 0)` lies inside the covered
region `[1, 4) × [0, 1)`. -/
def rC2 : PendingCheck := ⟨3, 0, 7, some true⟩

/-- Snapshot for the C3 analysis: origin `(0, 0)`, width 2, height 1. -/
def snapC3 : Snapshot := ⟨0, 0, 2, 1, List.replicate 8 0⟩

/-- Acked check for the C3 analysis: `x = 2 = snapC3.x + snapC3.width`,
one unit beyond the covered-region edge. -/
def rC3 : PendingCheck := ⟨2, 0, 7, some true⟩

/-- Workload entry for the C6 analysis, fresh from `random_msg` (no
`acked` key yet). -/
def rC6 : PendingCheck := ⟨3, 4, 5, none⟩

/-- State for the C7 analysis: one workload record, already pending and
already acked. -/
def sC7 : WorkerState := ⟨[⟨1, 2, 3, some true⟩], [0]⟩

/-- The workload record of `sC7`. -/
def rC7 : PendingCheck := ⟨1, 2, 3, some true⟩

/-- State for the C8 counterexample: the same workload record was
appended to the pending list twice (both references point at store
index 0). -/
def sC8 : WorkerState := ⟨[⟨1, 2, 3, some false⟩], [0, 0]⟩

/-- State for the C8 witness: a single pending reference. -/
def sC8w : WorkerState := ⟨[⟨1, 2, 3, some false⟩], [0]⟩

/-- The workload record of `sC8w`. -/
def rC8 : PendingCheck := ⟨1, 2, 3, some false⟩

/-- State for the C10 witness: one acked pending check. -/
def sC10 : WorkerState := ⟨[⟨0, 0, 1, some true⟩], [0]⟩

/-- The pending record of `sC10`. -/
def rC10 : PendingCheck := ⟨0, 0, 1, some true⟩

/-- Empty snapshot for the C10 witness: color 1 is not found, so the
scan returns -1 and the check at offset 0 mismatches. -/
def snapC10 : Snapshot := ⟨0, 0, 0, 0, []⟩

/-- The mismatch diagnostic produced on `snapC10` for `rC10`. -/
def eC10 : MismatchError := ⟨[1, 0, 0, 0], [], 0, -1, 0, 0⟩

/-- State with no pending checks, for the C10 witness's success half. -/
def sC10ok : WorkerState := ⟨[], []⟩

/- ------------------------------------------------------------------ -/
/- Helper lemmas shared by the claim theorems.                        -/
/- ------------------------------------------------------------------ -/

theorem setAcked_get_self (store : List PendingCheck) (i : Nat) (r : PendingCheck) (b : Bool)
    (h : store.get? i = some r) :
    (setAcked store i b).get? i = some { r with acked := some b } := by
  have hlt : i < store.length := by
    by_contra hge
    rw [List.get?_eq_none.mpr (Nat.le_of_not_lt hge)] at h
    cases h
  unfold setAcked
  rw [h]
  rw [List.get?_eq_getElem?, List.getElem?_set_self]
  exact hlt

theorem setAcked_get_other (store : List PendingCheck) (i j : Nat) (b : Bool)
    (h : j ≠ i) :
    (setAcked store i b).get? j = store.get? j := by
  unfold setAcked
  cases hg : store.get? i with
  | none => rfl
  | some r =>
    rw [List.get?_eq_getElem?, List.get?_eq_getElem?, List.getElem?_set_ne (Ne.symm h)]

theorem setAcked_projEq (store : List PendingCheck) (i j : Nat) (b : Bool) :
    ((setAcked store i b).get? j).map (fun r => (r.x, r.y, r.color))
      = (store.get? j).map (fun r => (r.x, r.y, r.color)) := by
  by_cases hij : j = i
  · subst hij
    cases hg : store.get? j with
    | none =>
      have hs : setAcked store j b = store := by unfold setAcked; rw [hg]
      rw [hs, hg]
    | some r =>
      have h1 := setAcked_get_self store j r b hg
      rw [h1]
      rfl
  · rw [setAcked_get_other store i j b hij]

theorem checkOne_of_unacked (tiles : List Nat) (r : PendingCheck)
    (h : r.acked = some false) : checkOne tiles r = none := by
  unfold checkOne
  rw [if_pos h]

theorem runChecks_cons_none (tiles : List Nat) (r : PendingCheck) (rest : List PendingCheck)
    (h : checkOne tiles r = none) :
    runChecks tiles (r :: rest) = runChecks tiles rest := by
  simp only [runChecks, h]

theorem runChecks_cons_some (tiles : List Nat) (r : PendingCheck) (rest : List PendingCheck)
    (e : MismatchError) (h : checkOne tiles r = some e) :
    runChecks tiles (r :: rest) = some e := by
  simp only [runChecks, h]

theorem runChecks_skip_unacked (tiles : List Nat) (rs1 rs2 : List PendingCheck)
    (r : PendingCheck) (h : r.acked = some false) :
    runChecks tiles (rs1 ++ r :: rs2) = runChecks tiles (rs1 ++ rs2) := by
  induction rs1 with
  | nil =>
    simp only [List.nil_append]
    exact runChecks_cons_none tiles r rs2 (checkOne_of_unacked tiles r h)
  | cons a as ih =>
    simp only [List.cons_append]
    cases ha : checkOne tiles a with
    | none => rw [runChecks_cons_none tiles a _ ha, runChecks_cons_none tiles a _ ha, ih]
    | some e => rw [runChecks_cons_some tiles a _ e ha, runChecks_cons_some tiles a _ e ha]

theorem runChecks_first_error (tiles : List Nat) (rs1 : List PendingCheck)
    (r : PendingCheck) (e : MismatchError)
    (h1 : ∀ r0 ∈ rs1, checkOne tiles r0 = none)
    (h2 : checkOne tiles r = some e) :
    ∀ rs2 : List PendingCheck, runChecks tiles (rs1 ++ r :: rs2) = some e := by
  intro rs2
  induction rs1 with
  | nil =>
    simp only [List.nil_append]
    exact runChecks_cons_some tiles r rs2 e h2
  | cons a as ih =>
    simp only [List.cons_append]
    have ha : checkOne tiles a = none := h1 a (by simp)
    rw [runChecks_cons_none tiles a _ ha]
    exact ih (fun r0 hr0 => h1 r0 (by simp [hr0]))

/- ------------------------------------------------------------------ -/
/- Claim theorems.                                                    -/
/- ------------------------------------------------------------------ -/

/-- C1: the claim says pass/fail is decided by comparing the expected
bytes against the 4 bytes at the computed offset, with the linear scan
used only for diagnostics.  The code decides pass/fail by the linear
scan: at `rC1`/`tilesC1` the 4 bytes at offset 4 equal the expected
encoding (so the direct comparison passes) yet `find_byte_sequence`
returns the earlier occurrence 0 and the check is declared a mismatch —
contradicting the claim and the source's own comment "take x * y as
offset and check for 4 bytes matching the color". -/
theorem C1_linear_scan_decides_passfail :
    (tilesC1.drop ((rC1.x + rC1.y * TILE_X) * 4)).take 4 = toBytesLE4 rC1.color
    ∧ find_byte_sequence tilesC1 (toBytesLE4 rC1.color) = 0
    ∧ runChecks tilesC1 [rC1] ≠ none := by decide

/-- C2 counterexample: `rC2 = (3, 0)` lies inside `snapC2`'s covered
region `[1, 4) × [0, 1)`, yet the mismatch the checker reports carries
offset `(3 + 0 * TILE_X) * 4 = 12`, not the claim's
`((3 - 1) + (0 - 0) * 3) * 4 = 8`. -/
theorem C2_snapshot_relative_offset_counterexample :
    inRegion snapC2 rC2 = true ∧ rC2.acked = some true
    ∧ (runChecks snapC2.tiles [rC2]).map MismatchError.offset
        = some ((rC2.x + rC2.y * TILE_X) * 4)
    ∧ (rC2.x + rC2.y * TILE_X) * 4 ≠ specOffset snapC2 rC2 := by decide

/-- C2 (amended): the integrity check computes the flat offset of a
pending check as `(x + y * TILE_X) * 4` with the fixed global grid width
`TILE_X`, never consulting the snapshot's origin or width: any reported
mismatch carries exactly that offset. -/
theorem C2_offset_uses_global_grid (tiles : List Nat) (r : PendingCheck)
    (e : MismatchError) (h : checkOne tiles r = some e) :
    e.offset = (r.x + r.y * TILE_X) * 4 := by
  simp only [checkOne] at h
  split at h
  · cases h
  · split at h
    · cases h
      rfl
    · cases h

/-- C2 witness: a concrete acked check whose scan misses, instantiating
`C2_offset_uses_global_grid` at `x = y = 0`. -/
theorem C2_offset_uses_global_grid_witness :
    checkOne ([] : List Nat) ⟨0, 0, 1, some true⟩
      = some ⟨[1, 0, 0, 0], [], 0, -1, 0, 0⟩
    ∧ (⟨[1, 0, 0, 0], [], 0, -1, 0, 0⟩ : MismatchError).offset = (0 + 0 * TILE_X) * 4 :=
  ⟨by decide,
   C2_offset_uses_global_grid [] ⟨0, 0, 1, some true⟩ ⟨[1, 0, 0, 0], [], 0, -1, 0, 0⟩
     (by decide)⟩

/-- C3 counterexample: `rC3` is acked and sits one unit beyond
`snapC3`'s covered-region edge (`x = snapC3.x + snapC3.width`), so the
claim says it is skipped and not flagged; the code has no coverage test,
examines it, and flags a mismatch. -/
theorem C3_beyond_edge_flagged_counterexample :
    rC3.acked = some true
    ∧ inRegion snapC3 rC3 = false
    ∧ rC3.x = snapC3.x + snapC3.width
    ∧ runChecks snapC3.tiles [rC3] ≠ none := by decide

/-- C3 (amended): the integrity check performs no coverage test: every
acked pending check is examined against the buffer whatever its
coordinates, and it passes exactly when the linear scan's first
occurrence of its expected bytes equals its global offset. -/
theorem C3_no_coverage_test (tiles : List Nat) (r : PendingCheck)
    (h : r.acked = some true) :
    (checkOne tiles r = none ↔
      find_byte_sequence tiles (toBytesLE4 r.color)
        = (((r.x + r.y * TILE_X) * 4 : Nat) : Int)) := by
  unfold checkOne
  rw [h]
  simp

/-- C3 witness: `C3_no_coverage_test` at a concrete acked check whose
expected bytes sit exactly at its offset 0. -/
theorem C3_no_coverage_test_witness :
    (⟨0, 0, 0, some true⟩ : PendingCheck).acked = some true
    ∧ (checkOne [0, 0, 0, 0] ⟨0, 0, 0, some true⟩ = none ↔
        find_byte_sequence [0, 0, 0, 0] (toBytesLE4 (0 : Nat))
          = (((0 + 0 * TILE_X) * 4 : Nat) : Int)) :=
  ⟨rfl, C3_no_coverage_test [0, 0, 0, 0] ⟨0, 0, 0, some true⟩ rfl⟩

/-- C4 counterexample: a truncated binary response (empty buffer) does
not leave the worker looping — the decode call sits under no exception
handler, so the worker crashes instead of continuing with its state. -/
theorem C4_truncated_buffer_counterexample :
    handleRecv ⟨[], []⟩ (RecvData.binary []) ≠ StepOutcome.next ⟨[], []⟩
    ∧ handleRecv ⟨[], []⟩ (RecvData.binary []) = StepOutcome.crashed := by decide

/-- C4 (amended): a binary response shorter than the minimum envelope
fails decoding, and that failure is unhandled — the exception escapes
and the worker terminates; only a response that is neither text nor
bytes is logged as "Unknown data type" with the loop continuing. -/
theorem C4_decode_failure_unhandled (s : WorkerState) (buf : List Nat)
    (h : buf.length < 16) :
    handleRecv s (RecvData.binary buf) = StepOutcome.crashed
    ∧ handleRecv s RecvData.other = StepOutcome.next s := by
  constructor
  · simp only [handleRecv, decodeSnapshot, if_pos h]
  · rfl

/-- C4 witness: `C4_decode_failure_unhandled` at a one-byte buffer. -/
theorem C4_decode_failure_unhandled_witness :
    ([0] : List Nat).length < 16
    ∧ (handleRecv ⟨[], []⟩ (RecvData.binary [0]) = StepOutcome.crashed
       ∧ handleRecv ⟨[], []⟩ RecvData.other = StepOutcome.next ⟨[], []⟩) :=
  ⟨by decide, C4_decode_failure_unhandled ⟨[], []⟩ [0] (by decide)⟩

/-- C5: `main` spawns exactly one worker (`coroutine(0, msg_dict)`),
although the constant `NUM_WORKERS` — documented in the source as
"Number of workers to create" — is 2; no worker outcome is aggregated
(the worker returns nothing on either exit path). -/
theorem C5_main_spawns_one_worker :
    mainSpawnedWorkers.length = 1 ∧ NUM_WORKERS = 2
    ∧ mainSpawnedWorkers.length ≠ NUM_WORKERS := by decide

/-- C6 counterexample: appending a pending check mutates the workload:
`check.append(to_check); check[-1]["acked"] = False` writes into the
workload entry's own dict, so after one send step the stored entry no
longer equals the generated entry `rC6`. -/
theorem C6_send_mutates_workload_entry :
    (sendStep ⟨[rC6], []⟩ 0).store ≠ [rC6] := by decide

/-- C6 (amended): the worker loop does mutate workload entries — but
only their `acked` key; the `x`, `y`, `color` fields of every workload
entry are preserved by both the send-append step and the text-ack
step. -/
theorem C6_coords_never_mutated (s : WorkerState) (i j : Nat) :
    ((sendStep s i).store.get? j).map (fun r => (r.x, r.y, r.color))
      = (s.store.get? j).map (fun r => (r.x, r.y, r.color))
    ∧ ((textAckStep s).store.get? j).map (fun r => (r.x, r.y, r.color))
      = (s.store.get? j).map (fun r => (r.x, r.y, r.color)) := by
  constructor
  · exact setAcked_projEq s.store i j false
  · unfold textAckStep
    cases hl : s.pending.getLast? with
    | none => rfl
    | some k => exact setAcked_projEq s.store k j true

/-- C7: picking an already-pending workload entry again appends the same
shared record: the pending list then holds the index twice, the shared
record's `acked` flag is reset to `false` (un-acking the earlier,
already-acknowledged pending check), and the checker will skip it at
the next snapshot. -/
theorem C7_reappend_resets_shared_ack (s : WorkerState) (i : Nat)
    (r : PendingCheck) (tiles : List Nat)
    (h1 : s.store.get? i = some r) (h2 : r.acked = some true)
    (h3 : i ∈ s.pending) :
    (sendStep s i).pending = s.pending ++ [i]
    ∧ 2 ≤ (sendStep s i).pending.count i
    ∧ (sendStep s i).store.get? i = some { r with acked := some false }
    ∧ checkOne tiles { r with acked := some false } = none := by
  refine ⟨rfl, ?_, ?_, ?_⟩
  · show 2 ≤ (s.pending ++ [i]).count i
    rw [List.count_append]
    have hp : 1 ≤ s.pending.count i := List.count_pos_iff.mpr h3
    have hsing : ([i].count i) = 1 := by simp
    omega
  · exact setAcked_get_self s.store i r false h1
  · exact checkOne_of_unacked tiles _ rfl

/-- C7 witness: `C7_reappend_resets_shared_ack` on `sC7`, whose only
record is pending and acked, re-picked at index 0. -/
theorem C7_reappend_resets_shared_ack_witness :
    sC7.store.get? 0 = some rC7 ∧ rC7.acked = some true ∧ 0 ∈ sC7.pending
    ∧ ((sendStep sC7 0).pending = sC7.pending ++ [0]
       ∧ 2 ≤ (sendStep sC7 0).pending.count 0
       ∧ (sendStep sC7 0).store.get? 0 = some { rC7 with acked := some false }
       ∧ checkOne [] { rC7 with acked := some false } = none) :=
  ⟨by decide, by decide, by decide,
   C7_reappend_resets_shared_ack sC7 0 rC7 [] (by decide) (by decide) (by decide)⟩

/-- C8 counterexample: with the same workload record pending twice
(`sC8`), the text ack sets `acked = true` through the shared reference,
so the earlier pending check (position 0, not the most recently
appended) reads `acked = true` afterwards — its fields did not stay
unchanged. -/
theorem C8_ack_changes_aliased_check :
    (sC8.pending.get? 0).bind (fun k => sC8.store.get? k)
      = some ⟨1, 2, 3, some false⟩
    ∧ ((textAckStep sC8).pending.get? 0).bind
        (fun k => (textAckStep sC8).store.get? k)
      = some ⟨1, 2, 3, some true⟩
    ∧ sC8.pending.length = 2 := by decide

/-- C8 (amended): a text response acks the workload record referenced by
the most recently appended pending check and leaves the pending list and
every other store record unchanged; because pending checks are
references, every earlier pending check aliasing that same record reads
`acked = true` as well. -/
theorem C8_ack_updates_shared_record (s : WorkerState) (i j : Nat)
    (r : PendingCheck) (h1 : s.pending.getLast? = some i)
    (h2 : s.store.get? i = some r) (h3 : j ≠ i) :
    (textAckStep s).pending = s.pending
    ∧ (textAckStep s).store.get? i = some { r with acked := some true }
    ∧ (textAckStep s).store.get? j = s.store.get? j := by
  have ht : textAckStep s = ⟨setAcked s.store i true, s.pending⟩ := by
    unfold textAckStep
    rw [h1]
  rw [ht]
  exact ⟨rfl, setAcked_get_self s.store i r true h2,
    setAcked_get_other s.store i j true h3⟩

/-- C8 witness: `C8_ack_updates_shared_record` on `sC8w` (one pending
reference at index 0), with untouched index `j = 1`. -/
theorem C8_ack_updates_shared_record_witness :
    sC8w.pending.getLast? = some 0 ∧ sC8w.store.get? 0 = some rC8
    ∧ (1 : Nat) ≠ 0
    ∧ ((textAckStep sC8w).pending = sC8w.pending
       ∧ (textAckStep sC8w).store.get? 0 = some { rC8 with acked := some true }
       ∧ (textAckStep sC8w).store.get? 1 = sC8w.store.get? 1) :=
  ⟨by decide, by decide, by decide,
   C8_ack_updates_shared_record sC8w 0 1 rC8 (by decide) (by decide) (by decide)⟩

/-- C9: a pending check whose `acked` flag is `false` when a snapshot
arrives is skipped: its own check yields nothing, and the whole
verification result is the same as if the item were absent — it is
reported neither as a success nor as a failure. -/
theorem C9_unacked_checks_skipped (tiles : List Nat)
    (rs1 rs2 : List PendingCheck) (r : PendingCheck)
    (h : r.acked = some false) :
    checkOne tiles r = none
    ∧ runChecks tiles (rs1 ++ r :: rs2) = runChecks tiles (rs1 ++ rs2) :=
  ⟨checkOne_of_unacked tiles r h, runChecks_skip_unacked tiles rs1 rs2 r h⟩

/-- C9 witness: `C9_unacked_checks_skipped` at a concrete un-acked
check. -/
theorem C9_unacked_checks_skipped_witness :
    (⟨4, 5, 6, some false⟩ : PendingCheck).acked = some false
    ∧ (checkOne [] ⟨4, 5, 6, some false⟩ = none
       ∧ runChecks [] ([] ++ (⟨4, 5, 6, some false⟩ : PendingCheck) :: [])
           = runChecks [] ([] ++ [])) :=
  ⟨rfl, C9_unacked_checks_skipped [] [] [] ⟨4, 5, 6, some false⟩ rfl⟩

/-- C10: the integrity check is fail-fast: when every earlier item
passes and an item mismatches, the verification stops with that item's
error whatever comes after it (the result does not depend on the tail),
the worker's binary step terminates carrying its state — pending list
untouched — and only a verification with no mismatch clears the pending
list and continues the loop. -/
theorem C10_first_mismatch_failfast (snap snap2 : Snapshot)
    (s s2 : WorkerState) (rs1 rs2 rs2a : List PendingCheck)
    (r : PendingCheck) (e : MismatchError)
    (hp : pendingRecs s = rs1 ++ r :: rs2)
    (h1 : ∀ r0 ∈ rs1, checkOne snap.tiles r0 = none)
    (h2 : checkOne snap.tiles r = some e)
    (h3 : runChecks snap2.tiles (pendingRecs s2) = none) :
    runChecks snap.tiles (rs1 ++ r :: rs2) = some e
    ∧ runChecks snap.tiles (rs1 ++ r :: rs2a) = some e
    ∧ binaryStep s snap = StepOutcome.terminated e s
    ∧ binaryStep s2 snap2 = StepOutcome.next { s2 with pending := [] } := by
  have ha := runChecks_first_error snap.tiles rs1 r e h1 h2
  refine ⟨ha rs2, ha rs2a, ?_, ?_⟩
  · unfold binaryStep
    rw [hp, ha rs2]
  · unfold binaryStep
    rw [h3]

/-- C10 witness: `C10_first_mismatch_failfast` with one mismatching
acked check on `snapC10` (and a nonempty alternative tail `rs2a`), and
an empty pending set for the success half. -/
theorem C10_first_mismatch_failfast_witness :
    pendingRecs sC10 = [] ++ rC10 :: []
    ∧ (∀ r0 ∈ ([] : List PendingCheck), checkOne snapC10.tiles r0 = none)
    ∧ checkOne snapC10.tiles rC10 = some eC10
    ∧ runChecks snapC10.tiles (pendingRecs sC10ok) = none
    ∧ (runChecks snapC10.tiles ([] ++ rC10 :: []) = some eC10
       ∧ runChecks snapC10.tiles ([] ++ rC10 :: [rC10]) = some eC10
       ∧ binaryStep sC10 snapC10 = StepOutcome.terminated eC10 sC10
       ∧ binaryStep sC10ok snapC10 = StepOutcome.next { sC10ok with pending := [] }) :=
  ⟨by decide, by simp, by decide, by decide,
   C10_first_mismatch_failfast snapC10 snapC10 sC10 sC10ok [] [] [rC10] rC10 eC10
     (by decide) (by simp) (by decide) (by decide)⟩

end RPlace
